/-
Verification of the "Most Wanted OTUs" result-aggregation logic
(emp/code/emp/most_wanted_otus.py).

The Python module is shallowly embedded: each relevant Python function is
translated to a Lean definition of the same name.  Python floats are
modelled as exact rationals (ℚ); Python exceptions are modelled with
`Except String`, the error string naming the Python exception raised.
Python string primitives (strip, split, startswith, join) are modelled by
structural recursion over the character list of the string, so that every
definition evaluates inside the kernel.
-/
import Mathlib

/- Core marks rational arithmetic irreducible; restore transparency inside
this file so that concrete runs of the embedded functions evaluate. -/
attribute [local semireducible] Rat.mul Rat.inv Rat.add Rat.sub

namespace MostWantedOtus

/-! ### Python string primitives -/

/-- Python str.strip() on a character list: drop leading and trailing
whitespace. -/
def stripList (cs : List Char) : List Char :=
  ((cs.dropWhile Char.isWhitespace).reverse.dropWhile Char.isWhitespace).reverse

/-- Python str.strip(). -/
def pyStrip (s : String) : String := (stripList s.toList).asString

/-- Python str.split(sep) for a one-character separator, on character
lists: always returns at least one (possibly empty) field. -/
def splitList (sep : Char) : List Char → List (List Char)
  | [] => [[]]
  | c :: rest =>
    match splitList sep rest with
    | [] => [[c]]
    | g :: gs => if c = sep then [] :: g :: gs else (c :: g) :: gs

/-- Python str.split(sep) for a one-character separator. -/
def pySplit (sep : Char) (s : String) : List String :=
  (splitList sep s.toList).map List.asString

/-- Whether one character list is a prefix of another, decidably and by
structural recursion. -/
def listIsPrefix : List Char → List Char → Bool
  | [], _ => true
  | _ :: _, [] => false
  | p :: ps, c :: cs => p = c && listIsPrefix ps cs

/-- Python str.startswith(prefix). -/
def pyStartswith (pre s : String) : Bool := listIsPrefix pre.toList s.toList

/-- Python sep.join(strings). -/
def pyJoin (sep : String) : List String → String
  | [] => ""
  | [s] => s
  | s :: rest => s ++ sep ++ pyJoin sep rest

instance {ε α : Type} [DecidableEq ε] [DecidableEq α] : DecidableEq (Except ε α) := fun a b =>
  match a, b with
  | Except.ok x, Except.ok y =>
    if h : x = y then isTrue (congrArg Except.ok h)
    else isFalse (fun he => h (Except.ok.inj he))
  | Except.ok _, Except.error _ => isFalse (fun he => Except.noConfusion he)
  | Except.error _, Except.ok _ => isFalse (fun he => Except.noConfusion he)
  | Except.error x, Except.error y =>
    if h : x = y then isTrue (congrArg Except.error h)
    else isFalse (fun he => h (Except.error.inj he))

/-! ### Data model of _get_top_n_blast_results -/

/-- A BLAST search hit: (query/OTU identifier, subject identifier, percent
identity), as unpacked on line 246 of most_wanted_otus.py. -/
abbrev Hit := String × String × ℚ

/-- Comparison used by `sorted(result, key=itemgetter(2))` (line 255):
compare hits by their percent identity (third component). -/
def hitLE (x y : Hit) : Prop := x.2.2 ≤ y.2.2

instance : DecidableRel hitLE := fun x y => inferInstanceAs (Decidable (x.2.2 ≤ y.2.2))

instance : IsTotal Hit hitLE := ⟨fun a b => le_total a.2.2 b.2.2⟩

instance : IsTrans Hit hitLE := ⟨fun _ _ _ h h' => le_trans h h'⟩

/-- Numeric value of a decimal digit character. -/
def charDigit (c : Char) : Nat := c.toNat - '0'.toNat

/-- Value of a list of decimal digit characters, most significant first. -/
def natOfDigits (ds : List Char) : Nat := ds.foldl (fun acc c => acc * 10 + charDigit c) 0

/-- Models the Python builtin float() on plain decimal literals: optional
surrounding whitespace, an optional sign, then digits with at most one
decimal point and at least one digit.  (Exponent forms, inf/nan and
underscore separators accepted by CPython never occur in the BLAST output
this module feeds to float(); floats are modelled as exact rationals.)
Returns none where float() raises ValueError. -/
def parseFloat? (s : String) : Option ℚ :=
  let cs := stripList s.toList
  let signRest : ℚ × List Char :=
    match cs with
    | '+' :: t => (1, t)
    | '-' :: t => (-1, t)
    | t => (1, t)
  let sign := signRest.1
  let rest := signRest.2
  let intPart := rest.takeWhile (fun c => c ≠ '.')
  let dotPart := rest.dropWhile (fun c => c ≠ '.')
  if intPart.all Char.isDigit then
    match dotPart with
    | [] => if intPart.isEmpty then none else some (sign * natOfDigits intPart)
    | _ :: frac =>
      if frac.all Char.isDigit ∧ ¬ (intPart.isEmpty ∧ frac.isEmpty) then
        some (sign * ((natOfDigits intPart : ℚ) + (natOfDigits frac : ℚ) / 10 ^ frac.length))
      else none
  else none

/-- State of the loop of _get_top_n_blast_results (lines 240-254): the
accumulated result list and the keys of the seen_otus dict (insertion
order; only membership is ever queried). -/
abbrev BlastState := List Hit × List String

/-- The ValueError CPython raises when tuple-unpacking a too-short list
(line 246 with fewer than three tab-separated fields). -/
def unpackErrMsg : String := "ValueError: need more than 2 values to unpack"

/-- The ValueError CPython raises when float() gets a non-numeric string
(line 247). -/
def floatErrMsg : String := "ValueError: could not convert string to float"

/-- One iteration of the loop of _get_top_n_blast_results (lines 242-254).
The stripped line is skipped when empty or a '#' comment; otherwise the
first three tab-separated fields are unpacked (raising ValueError when
fewer than three exist), the third is converted by float() (raising
ValueError when non-numeric), and the hit is appended when its percent
identity over 100 is at most max_nt_similarity and its query id is unseen. -/
def processLine (max_nt_similarity : ℚ) (st : BlastState) (line : String) :
    Except String BlastState :=
  let l := pyStrip line
  if l = "" ∨ pyStartswith "#" l then Except.ok st
  else
    match (pySplit '\t' l).take 3 with
    | [otu_id, subject_id, pid_str] =>
      match parseFloat? pid_str with
      | some percent_identity =>
        if percent_identity / 100 ≤ max_nt_similarity ∧ otu_id ∉ st.2 then
          Except.ok (st.1 ++ [(otu_id, subject_id, percent_identity)], st.2 ++ [otu_id])
        else Except.ok st
      | none => Except.error floatErrMsg
    | _ => Except.error unpackErrMsg

/-- The full loop of _get_top_n_blast_results over the input lines. -/
def processLines (max_nt_similarity : ℚ) (st : BlastState) :
    List String → Except String BlastState
  | [] => Except.ok st
  | line :: rest =>
    match processLine max_nt_similarity st line with
    | Except.ok st' => processLines max_nt_similarity st' rest
    | Except.error e => Except.error e

/-- _get_top_n_blast_results (lines 238-255): parse the hit lines, filter by
similarity, deduplicate by query id (first occurrence wins), sort ascending
by percent identity (Python's sorted is stable; so is insertion sort), and
keep the first top_n. -/
def _get_top_n_blast_results (lines : List String) (top_n : Nat)
    (max_nt_similarity : ℚ) : Except String (List Hit) :=
  match processLines max_nt_similarity ([], []) lines with
  | Except.ok st => Except.ok ((st.1.insertionSort hitLE).take top_n)
  | Except.error e => Except.error e

/-! ### Invariants of the parsing loop -/

/-- Invariant maintained by the loop of _get_top_n_blast_results: every
accumulated hit passed the similarity filter, accumulated query ids are
pairwise distinct, and every accumulated query id has been recorded in
seen_otus. -/
def BlastInv (t : ℚ) (st : BlastState) : Prop :=
  (∀ h ∈ st.1, h.2.2 / 100 ≤ t) ∧
  (st.1.map fun h => h.1).Nodup ∧
  (∀ h ∈ st.1, h.1 ∈ st.2)

lemma processLine_inv {t : ℚ} {st st' : BlastState} {line : String}
    (hok : processLine t st line = Except.ok st') (hinv : BlastInv t st) :
    BlastInv t st' := by
  simp only [processLine] at hok
  split at hok
  · cases hok
    exact hinv
  · split at hok
    · rename_i otu_id subject_id pid_str _
      split at hok
      · rename_i percent_identity _
        split at hok
        · rename_i hcond
          cases hok
          obtain ⟨hle, hnotseen⟩ := hcond
          obtain ⟨hgood, hnodup, hseen⟩ := hinv
          refine ⟨?_, ?_, ?_⟩
          · intro h hh
            rcases List.mem_append.mp hh with hmem | hmem
            · exact hgood h hmem
            · rcases List.mem_singleton.mp hmem with rfl
              exact hle
          · rw [List.map_append]
            rw [List.nodup_append]
            refine ⟨hnodup, List.nodup_singleton _, ?_⟩
            intro a ha hb
            rcases List.mem_singleton.mp hb with rfl
            rcases List.mem_map.mp ha with ⟨h, hh, hh1⟩
            exact hnotseen (hh1 ▸ hseen h hh)
          · intro h hh
            rcases List.mem_append.mp hh with hmem | hmem
            · exact List.mem_append_left _ (hseen h hmem)
            · rcases List.mem_singleton.mp hmem with rfl
              exact List.mem_append_right _ (List.mem_singleton.mpr rfl)
        · cases hok
          exact hinv
      · cases hok
    · cases hok

lemma processLines_inv {t : ℚ} {st st' : BlastState} {lines : List String}
    (hok : processLines t st lines = Except.ok st') (hinv : BlastInv t st) :
    BlastInv t st' := by
  induction lines generalizing st with
  | nil =>
    cases hok
    exact hinv
  | cons line rest ih =>
    unfold processLines at hok
    split at hok
    · rename_i st₁ hline
      exact ih hok (processLine_inv hline hinv)
    · cases hok

lemma blastInv_initial (t : ℚ) : BlastInv t ([], []) := by
  refine ⟨?_, ?_, ?_⟩ <;> simp [List.Nodup]

/-! ### Claims C1, C2, C3 -/

/-- C1: for every input hit list, maximum result count N and similarity
threshold, _get_top_n_blast_results returns at most N hits, and the
percent identity of every returned hit, divided by 100, is at most the
threshold (inclusive cutoff). -/
theorem top_n_blast_results_bounded_and_filtered
    (lines : List String) (top_n : Nat) (t : ℚ) (res : List Hit)
    (hok : _get_top_n_blast_results lines top_n t = Except.ok res) :
    res.length ≤ top_n ∧ ∀ h ∈ res, h.2.2 / 100 ≤ t := by
  unfold _get_top_n_blast_results at hok
  split at hok
  · rename_i st hst
    cases hok
    constructor
    · rw [List.length_take]
      exact min_le_left _ _
    · intro h hh
      have hmem : h ∈ st.1.insertionSort hitLE := (List.take_sublist _ _).subset hh
      have hmem' : h ∈ st.1 := (List.mem_insertionSort hitLE).mp hmem
      exact (processLines_inv hst (blastInv_initial t)).1 h hmem'
  · cases hok

/-- Witness for C1 at a concrete input. -/
theorem top_n_blast_results_bounded_and_filtered_witness :
    ([(("OTU1" : String), ("gi|1" : String), (5 : ℚ))].length ≤ 2) ∧
    ∀ h ∈ [(("OTU1" : String), ("gi|1" : String), (5 : ℚ))], h.2.2 / 100 ≤ (1 : ℚ) / 10 :=
  top_n_blast_results_bounded_and_filtered ["OTU1\tgi|1\t5.0"] 2 (1 / 10)
    [("OTU1", "gi|1", 5)] (by decide)

/-- C2: the query identifiers of the returned hits are pairwise distinct,
and the returned hits are sorted ascending by percent identity. -/
theorem top_n_blast_results_nodup_sorted
    (lines : List String) (top_n : Nat) (t : ℚ) (res : List Hit)
    (hok : _get_top_n_blast_results lines top_n t = Except.ok res) :
    (res.map fun h => h.1).Nodup ∧ res.Sorted hitLE := by
  unfold _get_top_n_blast_results at hok
  split at hok
  · rename_i st hst
    cases hok
    have hinv := processLines_inv hst (blastInv_initial t)
    constructor
    · have hsub : List.Sublist
          (((st.1.insertionSort hitLE).take top_n).map (fun h => h.1))
          ((st.1.insertionSort hitLE).map (fun h => h.1)) :=
        (List.take_sublist _ _).map _
      have hperm : List.Perm ((st.1.insertionSort hitLE).map (fun h => h.1))
          (st.1.map (fun h => h.1)) := (List.perm_insertionSort hitLE st.1).map _
      exact hsub.nodup (hperm.nodup_iff.mpr hinv.2.1)
    · exact List.Pairwise.sublist (List.take_sublist _ _)
        (List.sorted_insertionSort hitLE st.1)
  · cases hok

/-- Witness for C2 at a concrete input. -/
theorem top_n_blast_results_nodup_sorted_witness :
    (([(("OTU2" : String), ("gi|2" : String), (2 : ℚ)),
       (("OTU1" : String), ("gi|1" : String), (5 : ℚ))].map fun h => h.1).Nodup) ∧
    ([(("OTU2" : String), ("gi|2" : String), (2 : ℚ)),
      (("OTU1" : String), ("gi|1" : String), (5 : ℚ))].Sorted hitLE) :=
  top_n_blast_results_nodup_sorted
    ["OTU1\tgi|1\t5.0", "OTU2\tgi|2\t2.0", "OTU1\tgi|3\t1.0"] 2 (1 / 10)
    [("OTU2", "gi|2", 2), ("OTU1", "gi|1", 5)] (by decide)

/-- C3: once a query identifier has been recorded in seen_otus, any later
line carrying that identifier (whatever its percent identity) leaves the
loop state unchanged, i.e. only the first occurrence is retained; and on
the spec's example [("OTU1","gi|1",5.0), ("OTU2","gi|2",2.0),
("OTU1","gi|3",1.0)] with threshold 0.1 and top_n = 2 the function returns
[("OTU2","gi|2",2.0), ("OTU1","gi|1",5.0)]. -/
theorem first_occurrence_wins :
    (∀ (t : ℚ) (st : BlastState) (line otu_id subject_id pid_str : String)
        (percent_identity : ℚ),
        (pySplit '\t' (pyStrip line)).take 3 = [otu_id, subject_id, pid_str] →
        parseFloat? pid_str = some percent_identity →
        otu_id ∈ st.2 →
        processLine t st line = Except.ok st) ∧
    _get_top_n_blast_results
        ["OTU1\tgi|1\t5.0", "OTU2\tgi|2\t2.0", "OTU1\tgi|3\t1.0"] 2 (1 / 10) =
      Except.ok [("OTU2", "gi|2", 2), ("OTU1", "gi|1", 5)] := by
  constructor
  · intro t st line otu_id subject_id pid_str percent_identity hsplit hfloat hseen
    simp only [processLine]
    split
    · rfl
    · simp only [hsplit, hfloat]
      rw [if_neg (fun hc => hc.2 hseen)]
  · decide

/-- Witness for C3: the duplicated identifier OTU1, already seen with
percent identity 5.0, is discarded when it reappears with the lower
percent identity 1.0. -/
theorem first_occurrence_wins_witness :
    processLine (1 / 10) ([("OTU1", "gi|1", 5)], ["OTU1"]) "OTU1\tgi|3\t1.0" =
      Except.ok ([("OTU1", "gi|1", 5)], ["OTU1"]) :=
  first_occurrence_wins.1 (1 / 10) ([("OTU1", "gi|1", 5)], ["OTU1"])
    "OTU1\tgi|3\t1.0" "OTU1" "gi|3" "1.0" 1 (by decide) (by decide) (by decide)

/-! ### _format_pie_chart_data (lines 358-369) -/

/-- Descending comparison on rationals, as induced by
`sorted(..., reverse=True)` (line 364). -/
def qGE (a b : ℚ) : Prop := b ≤ a

instance : DecidableRel qGE := fun a b => inferInstanceAs (Decidable (b ≤ a))

instance : IsTotal ℚ qGE := ⟨fun a b => le_total b a⟩

instance : IsTrans ℚ qGE := ⟨fun _ _ _ h h' => le_trans h' h⟩

/-- Comparison used by `sorted(result, key=itemgetter(0), reverse=True)`
(line 364): compare (count, label, color) triples by count, descending.
Python's sorted is stable also with reverse=True, as is insertion sort. -/
def pieGE (x y : ℚ × String × String) : Prop := qGE x.1 y.1

instance : DecidableRel pieGE := fun x y => inferInstanceAs (Decidable (y.1 ≤ x.1))

instance : IsTotal (ℚ × String × String) pieGE := ⟨fun a b => le_total b.1 a.1⟩

instance : IsTrans (ℚ × String × String) pieGE := ⟨fun _ _ _ h h' => le_trans h' h⟩

/-- The ValueError message raised on line 360. -/
def lengthMismatchMsg : String :=
  "ValueError: The number of labels does not match the number of counts."

/-- The error Python raises when dividing by zero. -/
def zeroDivMsg : String := "ZeroDivisionError: float division by zero"

/-- Python division on floats: raises ZeroDivisionError on a zero divisor
(unlike IEEE floats, CPython raises). -/
def pyDiv (a b : ℚ) : Except String ℚ :=
  if b = 0 then Except.error zeroDivMsg else Except.ok (a / b)

/-- The comprehension `[(val, label, colors.next()) for val, label in
zip(data, labels)]` (line 363): the itertools.cycle built on line 362 is
modelled by the explicit index i, started at 0 by the caller; element j of
the input is assigned palette colour (i+j) mod len(palette).  The palette
itself ([data_colors[c].toHex() for c in data_color_order]) lives in the
external qiime.colors module and is passed as a parameter. -/
def assignColors (palette : List String) : Nat → List (ℚ × String) → List (ℚ × String × String)
  | _, [] => []
  | i, (val, label) :: rest =>
    (val, label, palette.getD (i % palette.length) "") :: assignColors palette (i + 1) rest

/-- Python '%.2f' formatting of a rational: nearest-hundredth rounding.
(CPython rounds the underlying binary double half-to-even; the embedding
works with exact rationals and rounds half up, which agrees wherever the
value is not a tie, as in every run appearing below.) -/
def formatFixed2 (q : ℚ) : String :=
  let n : ℤ := round (q * 100)
  let sign := if n < 0 then "-" else ""
  let m := n.natAbs
  sign ++ Nat.repr (m / 100) ++ "." ++
    (if m % 100 < 10 then "0" ++ Nat.repr (m % 100) else Nat.repr (m % 100))

/-- The comprehension `[(val / total, label, color) for val, label, color
in result]` (line 366): each division may raise ZeroDivisionError; an
empty list performs no division at all. -/
def normalizeKept (total : ℚ) : List (ℚ × String × String) → Except String (List (ℚ × String × String))
  | [] => Except.ok []
  | e :: rest =>
    match pyDiv e.1 total with
    | Except.ok f =>
      match normalizeKept total rest with
      | Except.ok rs => Except.ok ((f, e.2.1, e.2.2) :: rs)
      | Except.error err => Except.error err
    | Except.error err => Except.error err

/-- The value of the variable `result` after lines 363-364: coloured
(count, label, colour) triples, sorted by count descending, truncated to
max_count. -/
def pieResult (palette : List String) (labels : List String) (data : List ℚ)
    (max_count : Nat) : List (ℚ × String × String) :=
  ((assignColors palette 0 (data.zip labels)).insertionSort pieGE).take max_count

/-- The variable `total` of line 365: the sum of the kept counts only. -/
def pieTotal (palette : List String) (labels : List String) (data : List ℚ)
    (max_count : Nat) : ℚ :=
  ((pieResult palette labels data max_count).map fun e => e.1).sum

/-- _format_pie_chart_data (lines 358-369): validate equal lengths, attach
cycled colours, sort by count descending (stable), truncate to max_count,
normalise by the kept total, and return the three aligned sequences
(fractions, "label (xx.xx%)" strings, colours). -/
def _format_pie_chart_data (palette : List String) (labels : List String)
    (data : List ℚ) (max_count : Nat) :
    Except String (List ℚ × List String × List String) :=
  if labels.length ≠ data.length then Except.error lengthMismatchMsg
  else
    match normalizeKept (pieTotal palette labels data max_count)
        (pieResult palette labels data max_count) with
    | Except.ok result2 =>
      Except.ok (result2.map (fun e => e.1),
        result2.map (fun e => e.2.1 ++ " (" ++ formatFixed2 (e.1 * 100) ++ "%)"),
        result2.map (fun e => e.2.2))
    | Except.error e => Except.error e

/-- The counts kept by _format_pie_chart_data: the max_count largest
values of data, sorted descending (stably). -/
def pieKeep (data : List ℚ) (max_count : Nat) : List ℚ :=
  (data.insertionSort qGE).take max_count

/-! ### Lemmas about the pie-chart pipeline -/

lemma map_fst_orderedInsert (a : ℚ × String × String) (l : List (ℚ × String × String)) :
    (l.orderedInsert pieGE a).map (fun e => e.1) =
      (l.map (fun e => e.1)).orderedInsert qGE a.1 := by
  induction l with
  | nil => rfl
  | cons b l ih =>
    simp only [List.map_cons, List.orderedInsert]
    split_ifs with h₁ h₂ h₂
    · simp
    · exact absurd h₁ h₂
    · exact absurd h₂ h₁
    · simp only [List.map_cons]
      rw [ih]

lemma map_fst_insertionSort (l : List (ℚ × String × String)) :
    (l.insertionSort pieGE).map (fun e => e.1) =
      (l.map (fun e => e.1)).insertionSort qGE := by
  induction l with
  | nil => rfl
  | cons a l ih =>
    simp only [List.insertionSort, List.map_cons]
    rw [map_fst_orderedInsert, ih]

lemma map_fst_assignColors (palette : List String) (i : Nat) (pairs : List (ℚ × String)) :
    (assignColors palette i pairs).map (fun e => e.1) = pairs.map (fun p => p.1) := by
  induction pairs generalizing i with
  | nil => rfl
  | cons p rest ih =>
    cases p with
    | mk v l => simp only [assignColors, List.map_cons, ih]

lemma map_fst_zip_eq (data : List ℚ) (labels : List String)
    (h : labels.length = data.length) :
    (data.zip labels).map (fun p => p.1) = data := by
  induction data generalizing labels with
  | nil => rfl
  | cons d ds ih =>
    cases labels with
    | nil => simp at h
    | cons l ls =>
      simp only [List.zip_cons_cons, List.map_cons, List.cons.injEq, true_and]
      exact ih ls (by simpa using h)

/-- The counts kept by the function are exactly pieKeep. -/
lemma kept_fst (palette : List String) (labels : List String) (data : List ℚ)
    (max_count : Nat) (h : labels.length = data.length) :
    ((pieResult palette labels data max_count).map fun e => e.1) =
      pieKeep data max_count := by
  unfold pieResult
  rw [List.map_take]
  rw [map_fst_insertionSort]
  rw [map_fst_assignColors, map_fst_zip_eq data labels h]
  rfl

/-- The kept total is the sum of pieKeep. -/
lemma pieTotal_eq (palette : List String) (labels : List String) (data : List ℚ)
    (max_count : Nat) (h : labels.length = data.length) :
    pieTotal palette labels data max_count = (pieKeep data max_count).sum := by
  unfold pieTotal
  rw [kept_fst palette labels data max_count h]

lemma normalizeKept_ok {total : ℚ} {l l' : List (ℚ × String × String)}
    (h : normalizeKept total l = Except.ok l') :
    l' = l.map (fun e => (e.1 / total, e.2.1, e.2.2)) ∧ (l ≠ [] → total ≠ 0) := by
  induction l generalizing l' with
  | nil =>
    cases h
    exact ⟨rfl, fun hne => absurd rfl hne⟩
  | cons e rest ih =>
    simp only [normalizeKept] at h
    split at h
    · rename_i f hf
      split at h
      · rename_i rs hrs
        cases h
        have hfe : f = e.1 / total ∧ total ≠ 0 := by
          simp only [pyDiv] at hf
          by_cases htot : total = 0
          · rw [if_pos htot] at hf
            cases hf
          · rw [if_neg htot] at hf
            cases hf
            exact ⟨rfl, htot⟩
        obtain ⟨hmap, _⟩ := ih hrs
        constructor
        · rw [List.map_cons, ← hmap, hfe.1]
        · intro _
          exact hfe.2
      · cases h
    · cases h

lemma normalizeKept_ok_of_ne {total : ℚ} (htot : total ≠ 0)
    (l : List (ℚ × String × String)) :
    normalizeKept total l = Except.ok (l.map (fun e => (e.1 / total, e.2.1, e.2.2))) := by
  induction l with
  | nil => rfl
  | cons e rest ih =>
    simp only [normalizeKept, pyDiv, if_neg htot, ih, List.map_cons]

lemma normalizeKept_error_iff (total : ℚ) (l : List (ℚ × String × String)) :
    normalizeKept total l = Except.error zeroDivMsg ↔ l ≠ [] ∧ total = 0 := by
  induction l with
  | nil =>
    simp only [normalizeKept]
    constructor
    · intro h
      cases h
    · intro h
      exact absurd rfl h.1
  | cons e rest ih =>
    simp only [normalizeKept]
    by_cases htot : total = 0
    · have hpd : pyDiv e.1 total = Except.error zeroDivMsg := by
        simp [pyDiv, htot]
      simp only [hpd]
      simp [htot]
    · have hpd : pyDiv e.1 total = Except.ok (e.1 / total) := by
        simp [pyDiv, htot]
      simp only [hpd]
      constructor
      · intro h
        split at h
        · cases h
        · rename_i err herr
          cases h
          exact absurd (ih.mp herr).2 htot
      · intro hc
        exact absurd hc.2 htot

/-- Every error normalizeKept produces is the ZeroDivisionError. -/
lemma normalizeKept_error_msg {total : ℚ} {l : List (ℚ × String × String)} {e : String}
    (h : normalizeKept total l = Except.error e) : e = zeroDivMsg := by
  induction l with
  | nil => cases h
  | cons x rest ih =>
    simp only [normalizeKept] at h
    split at h
    · rename_i f hf
      split at h
      · cases h
      · rename_i err herr
        cases h
        exact ih herr
    · rename_i err herr
      cases h
      simp only [pyDiv] at herr
      by_cases htot : total = 0
      · rw [if_pos htot] at herr
        cases herr
        rfl
      · rw [if_neg htot] at herr
        cases herr

lemma sum_map_div (l : List ℚ) (t : ℚ) :
    (l.map (fun x => x / t)).sum = l.sum / t := by
  induction l with
  | nil => simp
  | cons x xs ih => simp [ih, add_div]

/-- Colours are assigned before the sort, by input position: element j of
the pair list, under a cycle started at index i, receives palette colour
(i+j) mod len(palette). -/
lemma assignColors_getD (palette : List String) (i : Nat)
    (pairs : List (ℚ × String)) (j : Nat) (hj : j < pairs.length) :
    ((assignColors palette i pairs).getD j (0, "", "")).2.2 =
      palette.getD ((i + j) % palette.length) "" := by
  induction pairs generalizing i j with
  | nil => simp at hj
  | cons p rest ih =>
    cases p with
    | mk v l =>
      cases j with
      | zero => simp [assignColors]
      | succ j =>
        have hj' : j < rest.length := Nat.lt_of_succ_lt_succ hj
        have hidx : i + 1 + j = i + (j + 1) := by omega
        simp only [assignColors, List.getD_cons_succ]
        rw [ih (i + 1) j hj', hidx]

/-! ### Claims C4, C5, C9, C10 -/

/-- C4 (amended): whenever _format_pie_chart_data returns, the returned
fractions are exactly the max_count largest counts, sorted descending,
each divided by the sum of those kept counts only; the fraction list has
length at most max_count; and whenever it is nonempty it sums to 1.  On
the spec's example (labels ["A","B","C"], counts [10,30,5], max_count 2)
the fractions are [0.75, 0.25] labelled "B (75.00%)" and "A (25.00%)".
(The unamended claim asserted the sum is 1.0 for every valid input; when
the kept list is empty — empty inputs, or max_count = 0 — the function
returns empty sequences whose sum is 0, see the counterexample.) -/
theorem pie_chart_top_groups_normalized :
    (∀ (palette labels : List String) (data : List ℚ) (max_count : Nat)
        (fracs : List ℚ) (labs cols : List String),
        _format_pie_chart_data palette labels data max_count =
          Except.ok (fracs, labs, cols) →
        fracs = (pieKeep data max_count).map
          (fun v => v / (pieKeep data max_count).sum) ∧
        fracs.length ≤ max_count ∧
        (fracs ≠ [] → fracs.sum = 1)) ∧
    _format_pie_chart_data ["#c0", "#c1", "#c2"] ["A", "B", "C"] [10, 30, 5] 2 =
      Except.ok ([3 / 4, 1 / 4], ["B (75.00%)", "A (25.00%)"], ["#c1", "#c0"]) := by
  constructor
  · intro palette labels data max_count fracs labs cols hok
    simp only [_format_pie_chart_data] at hok
    split at hok
    · cases hok
    · rename_i hlen
      have hlen' : labels.length = data.length := not_not.mp hlen
      split at hok
      · rename_i result2 hres2
        cases hok
        obtain ⟨hmap, hnz⟩ := normalizeKept_ok hres2
        have hkeep := kept_fst palette labels data max_count hlen'
        have htot := pieTotal_eq palette labels data max_count hlen'
        have hfr : result2.map (fun e => e.1) =
            ((pieResult palette labels data max_count).map (fun e => e.1)).map
              (fun v => v / pieTotal palette labels data max_count) := by
          rw [hmap]
          simp [List.map_map, Function.comp_def]
        refine ⟨?_, ?_, ?_⟩
        · rw [hfr, hkeep, htot]
        · rw [hfr, List.length_map, hkeep]
          unfold pieKeep
          rw [List.length_take]
          exact min_le_left _ _
        · intro hne
          have hRne : pieResult palette labels data max_count ≠ [] := by
            intro h0
            apply hne
            rw [hmap, h0]
            rfl
          have htot0 : pieTotal palette labels data max_count ≠ 0 := hnz hRne
          rw [hfr, sum_map_div]
          rw [show ((pieResult palette labels data max_count).map fun e => e.1).sum =
                pieTotal palette labels data max_count from rfl]
          exact div_self htot0
      · cases hok
  · decide

/-- Witness for the general part of C4 at the spec's example input. -/
theorem pie_chart_top_groups_normalized_witness :
    ([3 / 4, 1 / 4] : List ℚ) = (pieKeep [10, 30, 5] 2).map
      (fun v => v / (pieKeep [10, 30, 5] 2).sum) ∧
    ([3 / 4, 1 / 4] : List ℚ).length ≤ 2 ∧
    (([3 / 4, 1 / 4] : List ℚ) ≠ [] → ([3 / 4, 1 / 4] : List ℚ).sum = 1) :=
  pie_chart_top_groups_normalized.1 ["#c0", "#c1", "#c2"] ["A", "B", "C"]
    [10, 30, 5] 2 [3 / 4, 1 / 4] ["B (75.00%)", "A (25.00%)"] ["#c1", "#c0"]
    (by decide)

/-- Counterexample to C4 as stated: on the valid (equal-length) input of
empty labels and counts, the function succeeds with an empty fraction
sequence, whose sum is 0, not 1.0. -/
theorem pie_chart_sum_counterexample :
    _format_pie_chart_data ["#0000ff"] [] [] 2 = Except.ok ([], [], []) ∧
    (([] : List ℚ).sum ≠ 1) :=
  ⟨by decide, by decide⟩

/-- C5: _format_pie_chart_data raises its ValueError ("The number of
labels does not match the number of counts.") exactly when the labels and
counts sequences have different lengths. -/
theorem pie_chart_length_mismatch_iff (palette labels : List String)
    (data : List ℚ) (max_count : Nat) :
    _format_pie_chart_data palette labels data max_count =
        Except.error lengthMismatchMsg ↔
      labels.length ≠ data.length := by
  constructor
  · intro h
    by_contra hlen
    simp only [_format_pie_chart_data, if_neg (not_not.mpr hlen)] at h
    split at h
    · cases h
    · rename_i err herr
      cases h
      exact absurd (normalizeKept_error_msg herr) (by decide)
  · intro hlen
    simp only [_format_pie_chart_data, if_pos hlen]

/-- Witness for C5: one label, zero counts. -/
theorem pie_chart_length_mismatch_iff_witness :
    _format_pie_chart_data ["#c0"] ["A"] [] 3 = Except.error lengthMismatchMsg :=
  (pie_chart_length_mismatch_iff ["#c0"] ["A"] [] 3).mpr (by decide)

/-- C9 (amended): for valid (equal-length) inputs, the unguarded division
val / total raises ZeroDivisionError exactly when the kept top-max_count
counts form a NONEMPTY list summing to zero.  When the kept list is empty
(empty inputs, or max_count = 0) the normalising comprehension iterates
zero times, no division is evaluated, and the call returns empty
sequences instead of failing — contrary to the claim's "including the
case of empty labels and counts" (see the counterexample). -/
theorem pie_chart_zero_total_raises (palette labels : List String)
    (data : List ℚ) (max_count : Nat) (hlen : labels.length = data.length) :
    _format_pie_chart_data palette labels data max_count =
        Except.error zeroDivMsg ↔
      (pieKeep data max_count ≠ [] ∧ (pieKeep data max_count).sum = 0) := by
  have hlen' : ¬ labels.length ≠ data.length := not_not.mpr hlen
  have hkeep := kept_fst palette labels data max_count hlen
  have htot := pieTotal_eq palette labels data max_count hlen
  have hnil : pieResult palette labels data max_count = [] ↔
      pieKeep data max_count = [] := by
    rw [← hkeep]
    simp
  simp only [_format_pie_chart_data, if_neg hlen']
  rcases hE : normalizeKept (pieTotal palette labels data max_count)
      (pieResult palette labels data max_count) with err | res2
  · have herr := normalizeKept_error_msg hE
    subst herr
    have hchar := (normalizeKept_error_iff _ _).mp hE
    constructor
    · intro _
      exact ⟨fun h0 => hchar.1 (hnil.mpr h0), htot ▸ hchar.2⟩
    · intro _
      rfl
  · constructor
    · intro h
      cases h
    · intro hc
      obtain ⟨_, hnz⟩ := normalizeKept_ok hE
      have hRne : pieResult palette labels data max_count ≠ [] :=
        fun h0 => hc.1 (hnil.mp h0)
      exact absurd (htot ▸ hnz hRne) (not_not.mpr hc.2)

/-- Witness for C9 (amended): two zero counts, kept in full, raise the
ZeroDivisionError. -/
theorem pie_chart_zero_total_raises_witness :
    _format_pie_chart_data ["#d0"] ["A", "B"] [0, 0] 2 = Except.error zeroDivMsg :=
  (pie_chart_zero_total_raises ["#d0"] ["A", "B"] [0, 0] 2 (by decide)).mpr
    (by decide)

/-- Counterexample to C9 as stated: with empty labels and counts (kept
counts sum to zero), the call does NOT fail with a division-by-zero
error; it returns empty pie-chart data. -/
theorem pie_chart_empty_input_succeeds :
    _format_pie_chart_data ["#ff0000"] [] [] 2 = Except.ok ([], [], []) := by
  decide

/-- C10: the colour cycle is rebuilt from palette index 0 on every call
(the embedding of a call takes no cross-call state whatsoever, so two
calls on equal arguments are identical by construction), and colours are
assigned to groups by their position in the input sequence before the
descending sort: element j of the zipped input receives palette colour
j mod len(palette).  On the discriminating input (counts [1, 2], palette
["#c0", "#c1"]) the output colours are ["#c1", "#c0"], following the
groups through the sort rather than being reassigned by final rank. -/
theorem color_cycle_fresh_per_call :
    (∀ (palette : List String) (pairs : List (ℚ × String)) (j : Nat),
        j < pairs.length →
        ((assignColors palette 0 pairs).getD j (0, "", "")).2.2 =
          palette.getD (j % palette.length) "") ∧
    _format_pie_chart_data ["#c0", "#c1"] ["A", "B"] [1, 2] 2 =
      Except.ok ([2 / 3, 1 / 3], ["B (66.67%)", "A (33.33%)"], ["#c1", "#c0"]) := by
  constructor
  · intro palette pairs j hj
    simpa using assignColors_getD palette 0 pairs j hj
  · decide

/-- Witness for C10: the third input pair receives palette colour
2 mod 2 = 0. -/
theorem color_cycle_fresh_per_call_witness :
    ((assignColors ["x", "y"] 0 [(1, "A"), (2, "B"), (3, "C")]).getD 2
        (0, "", "")).2.2 =
      (["x", "y"].getD (2 % 2) "") :=
  color_cycle_fresh_per_call.1 ["x", "y"] [(1, "A"), (2, "B"), (3, "C")] 2
    (by decide)

/-! ### Claim C6: line-skipping versus malformed lines -/

/-- Counterexample to C6 as stated: a malformed line is NOT skipped
silently; it raises a ValueError that aborts parsing, losing the
well-formed hits around it. -/
theorem malformed_line_aborts_parsing :
    _get_top_n_blast_results ["OTU1\tgi|1\t5.0", "badline", "OTU2\tgi|2\t2.0"]
        5 (1 / 10) =
      Except.error unpackErrMsg := by
  decide

/-- C6 (amended): blank lines and lines whose stripped form starts with
'#' are skipped silently, but a non-blank, non-comment line with fewer
than three tab-separated fields raises the unpacking ValueError, and one
whose third field is not numeric raises the float() ValueError — such
lines abort parsing instead of being skipped. -/
theorem blank_comment_skipped_malformed_raises :
    (∀ (t : ℚ) (st : BlastState) (line : String),
        (pyStrip line = "" ∨ pyStartswith "#" (pyStrip line) = true) →
        processLine t st line = Except.ok st) ∧
    (∀ (t : ℚ) (st : BlastState) (line : String),
        ¬ (pyStrip line = "" ∨ pyStartswith "#" (pyStrip line) = true) →
        (pySplit '\t' (pyStrip line)).length < 3 →
        processLine t st line = Except.error unpackErrMsg) ∧
    (∀ (t : ℚ) (st : BlastState) (line otu_id subject_id pid_str : String),
        ¬ (pyStrip line = "" ∨ pyStartswith "#" (pyStrip line) = true) →
        (pySplit '\t' (pyStrip line)).take 3 = [otu_id, subject_id, pid_str] →
        parseFloat? pid_str = none →
        processLine t st line = Except.error floatErrMsg) := by
  refine ⟨?_, ?_, ?_⟩
  · intro t st line hc
    simp only [processLine]
    rw [if_pos hc]
  · intro t st line hnc hlen
    simp only [processLine]
    rw [if_neg hnc]
    rcases hsp : pySplit '\t' (pyStrip line) with _ | ⟨a, rest⟩
    · rfl
    · rcases rest with _ | ⟨b, rest2⟩
      · rfl
      · rcases rest2 with _ | ⟨c, rest3⟩
        · rfl
        · rw [hsp] at hlen
          simp at hlen
          omega
  · intro t st line otu_id subject_id pid_str hnc hsplit hfloat
    simp only [processLine]
    rw [if_neg hnc]
    simp only [hsplit, hfloat]

/-- Witness for C6 (amended): the malformed line "badline" raises the
unpacking ValueError. -/
theorem blank_comment_skipped_malformed_raises_witness :
    processLine (1 / 10) ([], []) "badline" = Except.error unpackErrMsg :=
  blank_comment_skipped_malformed_raises.2.1 (1 / 10) ([], []) "badline"
    (by decide) (by decide)

/-! ### Claim C8: output-directory creation (lines 49-55 and 90-95) -/

/-- os.makedirs, with the filesystem abstracted to whether the target
directory already exists: raises OSError exactly in that case. -/
def makedirsExc (dirExists : Bool) : Except String Unit :=
  if dirExists then Except.error "OSError" else Except.ok ()

/-- Lines 49-55 of generate_most_wanted_list: try makedirs(output_dir);
on OSError, raise a WorkflowError unless force is set. -/
def createOutputDir (output_dir : String) (dirExists force : Bool) :
    Except String Unit :=
  match makedirsExc dirExists with
  | Except.ok _ => Except.ok ()
  | Except.error _ =>
    if force then Except.ok ()
    else Except.error ("WorkflowError: Output directory '" ++ output_dir ++
      "' already exists. Please choose a different directory, or force overwrite with -f.")

/-- Lines 90-95: try makedirs(output_img_dir); on OSError, pass. -/
def createImgDir (dirExists : Bool) : Except String Unit :=
  match makedirsExc dirExists with
  | Except.ok _ => Except.ok ()
  | Except.error _ => Except.ok ()

/-- C8: when the output directory already exists, generate_most_wanted_list
raises the WorkflowError if force is not set; with force set the OSError
is swallowed and the run proceeds; a pre-existing image subdirectory is
likewise ignored. -/
theorem output_dir_exists_behavior (output_dir : String) :
    createOutputDir output_dir true false =
      Except.error ("WorkflowError: Output directory '" ++ output_dir ++
        "' already exists. Please choose a different directory, or force overwrite with -f.") ∧
    createOutputDir output_dir true true = Except.ok () ∧
    createImgDir true = Except.ok () :=
  ⟨rfl, rfl, rfl⟩

/-! ### _format_top_n_results_table (lines 264-356) -/

/-- The external biom table object, as used by the formatter: sample ids,
per-observation count rows, and per-observation taxonomy metadata.  The
two lookups raise (UnknownIDError) on a missing observation id, modelled
with Option. -/
structure BiomTable where
  SampleIds : List String
  observationData : String → Option (List ℚ)
  taxonomy : String → Option String

/-- The splitting recipe of line 295: seq cut into 40-character pieces. -/
def chunkList (cs : List Char) : List (List Char) :=
  if h : cs = [] then []
  else cs.take 40 :: chunkList (cs.drop 40)
termination_by cs.length
decreasing_by
  simp only [List.length_drop]
  have hne : cs.length ≠ 0 := fun h0 => h (List.length_eq_zero.mp h0)
  omega

/-- Python str() on a float.  Exact for integral values ("5.0"); a
non-integral rational is rendered as num/den, a deviation from CPython's
shortest-roundtrip decimal that no claim below inspects. -/
def floatStr (q : ℚ) : String :=
  if q.den = 1 then
    (if q.num < 0 then "-" else "") ++ Nat.repr q.num.natAbs ++ ".0"
  else
    (if q.num < 0 then "-" else "") ++ Nat.repr q.num.natAbs ++ "/" ++ Nat.repr q.den

/-- Python os.path.join for the simple two-component case used here. -/
def osPathJoin (a b : String) : String := a ++ "/" ++ b

/-- Python basename(normpath(p)) for the plain paths used here: the last
nonempty slash-separated component. -/
def basenameNormpath (p : String) : String :=
  ((pySplit '/' p).filter (fun s => s ≠ "")).getLastD ""

/-- _format_legend_html (lines 371-375): one list item per pie slice. -/
def _format_legend_html (plot_data : List ℚ × List String × List String) : String :=
  "<ul class=\"most_wanted_otus_legend\">" ++
  String.join (((plot_data.1.zip plot_data.2.1).zip plot_data.2.2).map
    (fun p => "<li><div class=\"key\" style=\"background-color:" ++ p.2 ++
      "\"></div>" ++ p.1.2 ++ "</li>")) ++ "</ul>"

/-- The TSV header of lines 274-277. -/
def tsvHeader (suppress_taxonomic_output : Bool) : String :=
  "#\tOTU ID\tSequence\t" ++
  (if suppress_taxonomic_output then "" else "Greengenes taxonomy\t") ++
  "NCBI nt closest match\tNCBI nt % identity\n"

/-- The HTML table header of lines 279-284. -/
def htmlTableHeader (suppress_taxonomic_output : Bool) (mapping_category : String) : String :=
  "<table id=\"most_wanted_otus_table\" border=\"border\"><tr><th>#</th><th>OTU</th>" ++
  (if suppress_taxonomic_output then "" else "<th>Greengenes taxonomy</th>") ++
  "<th>NCBI nt closest match</th><th>Abundance by " ++ mapping_category ++
  "</th></tr>"

/-- One iteration of the loop on lines 286-353, for the hit of 0-based
rank mw_num: look up the sequence (KeyError on a miss), the taxonomy
(unless suppressed), the GenBank id (subject field 3), and the count row;
build the pie-chart data; and return this result's TSV row, HTML row,
FASTA record, chart path and chart-data path.  Adjacent string literals
are split where a later theorem cuts them; the concatenation is
unchanged. -/
def formatRow (palette : List String) (mw_seqs : String → Option String)
    (table : BiomTable) (output_img_dir mapping_category : String)
    (suppress_taxonomic_output : Bool) (num_categories_to_plot : Nat)
    (mw_num : Nat) (hit : Hit) :
    Except String (String × String × String × String × String) :=
  match mw_seqs hit.1 with
  | none => Except.error ("KeyError: " ++ hit.1)
  | some seq =>
    match (if suppress_taxonomic_output then some "" else table.taxonomy hit.1) with
    | none => Except.error ("UnknownIDError: " ++ hit.1)
    | some tax =>
      match (pySplit '|' hit.2.1).get? 3 with
      | none => Except.error "IndexError: list index out of range"
      | some gb_id =>
        match table.observationData hit.1 with
        | none => Except.error ("UnknownIDError: " ++ hit.1)
        | some counts =>
          match _format_pie_chart_data palette table.SampleIds counts
              num_categories_to_plot with
          | Except.error e => Except.error e
          | Except.ok plot_data =>
            let ncbi_link := "http://www.ncbi.nlm.nih.gov/nuccore/" ++ gb_id
            let pie_chart_filename :=
              "abundance_by_" ++ mapping_category ++ "_" ++ hit.1 ++ ".png"
            let pie_chart_rel_fp :=
              osPathJoin (basenameNormpath output_img_dir) pie_chart_filename
            let pie_chart_abs_fp := osPathJoin output_img_dir pie_chart_filename
            let plot_data_fp := osPathJoin output_img_dir
              ("abundance_by_" ++ mapping_category ++ "_" ++ hit.1 ++ ".p")
            let split_seq := (chunkList seq.toList).map List.asString
            let tsvRow := (Nat.repr (mw_num + 1) ++ "\t") ++
              (hit.1 ++ "\t" ++ seq ++ "\t" ++
                (if suppress_taxonomic_output then "" else tax ++ "\t") ++
                gb_id ++ "\t" ++ floatStr hit.2.2 ++ "\n")
            let htmlRow := ("<tr><td>" ++ Nat.repr (mw_num + 1) ++ "</td>") ++
              ("<td><pre>&gt;" ++ hit.1 ++ "\n" ++ pyJoin "\n" split_seq ++
                "</pre></td>" ++
                (if suppress_taxonomic_output then "" else "<td>" ++ tax ++ "</td>") ++
                "<td><a href=\"" ++ ncbi_link ++ "\" target=\"_blank\">" ++ gb_id ++
                "</a> (" ++ floatStr hit.2.2 ++ "% sim.)</td>" ++
                "<td><table><tr><td><img src=\"" ++ pie_chart_rel_fp ++
                "\" width=\"300\" height=\"300\" /></td><td>" ++
                _format_legend_html plot_data ++ "</td></tr></table></tr>")
            let fastaRec := ">" ++ hit.1 ++ "\n" ++ seq ++ "\n"
            Except.ok (tsvRow, htmlRow, fastaRec, pie_chart_abs_fp, plot_data_fp)

/-- The full loop of lines 286-353 over the enumerated ranked results. -/
def formatRows (palette : List String) (mw_seqs : String → Option String)
    (table : BiomTable) (output_img_dir mapping_category : String)
    (suppress_taxonomic_output : Bool) (num_categories_to_plot : Nat) :
    Nat → List Hit →
      Except String (List (String × String × String × String × String))
  | _, [] => Except.ok []
  | i, hit :: rest =>
    match formatRow palette mw_seqs table output_img_dir mapping_category
        suppress_taxonomic_output num_categories_to_plot i hit with
    | Except.error e => Except.error e
    | Except.ok row =>
      match formatRows palette mw_seqs table output_img_dir mapping_category
          suppress_taxonomic_output num_categories_to_plot (i + 1) rest with
      | Except.error e => Except.error e
      | Except.ok rows => Except.ok (row :: rows)

/-- _format_top_n_results_table (lines 264-356): headers, one row per
ranked result in rank order, closing tag, and the chart path lists. -/
def _format_top_n_results_table (palette : List String) (top_n_mw : List Hit)
    (mw_seqs : String → Option String) (table : BiomTable)
    (output_img_dir mapping_category : String)
    (suppress_taxonomic_output : Bool) (num_categories_to_plot : Nat) :
    Except String (String × String × String × List String × List String) :=
  match formatRows palette mw_seqs table output_img_dir mapping_category
      suppress_taxonomic_output num_categories_to_plot 0 top_n_mw with
  | Except.error e => Except.error e
  | Except.ok rows =>
    Except.ok (tsvHeader suppress_taxonomic_output ++
        String.join (rows.map fun r => r.1),
      htmlTableHeader suppress_taxonomic_output mapping_category ++
        String.join (rows.map fun r => r.2.1) ++ "</table>",
      String.join (rows.map fun r => r.2.2.1),
      rows.map fun r => r.2.2.2.1,
      rows.map fun r => r.2.2.2.2)

/-! ### String-prefix and suffix machinery for the report rows -/

/-- s begins with p. -/
def strStartsWith (p s : String) : Prop := ∃ r, s = p ++ r

/-- s ends with suf. -/
def strEndsWith (suf s : String) : Prop := ∃ r, s = r ++ suf

lemma str_append_assoc (a b c : String) : a ++ b ++ c = a ++ (b ++ c) := by
  apply String.ext
  simp only [String.data_append, List.append_assoc]

lemma strStartsWith_self_append (p r : String) : strStartsWith p (p ++ r) := ⟨r, rfl⟩

lemma strStartsWith_appendExt {p s : String} (t : String)
    (h : strStartsWith p s) : strStartsWith p (s ++ t) := by
  obtain ⟨r, rfl⟩ := h
  exact ⟨r ++ t, str_append_assoc p r t⟩

lemma strEndsWith_append (r : String) {suf t : String}
    (h : strEndsWith suf t) : strEndsWith suf (r ++ t) := by
  obtain ⟨x, rfl⟩ := h
  exact ⟨r ++ x, (str_append_assoc r x suf).symm⟩

lemma formatRows_ok {palette : List String} {mw_seqs : String → Option String}
    {table : BiomTable} {dir cat : String} {sup : Bool} {nc : Nat}
    {i : Nat} {l : List Hit}
    {rows : List (String × String × String × String × String)}
    (h : formatRows palette mw_seqs table dir cat sup nc i l = Except.ok rows) :
    rows.length = l.length ∧
    ∀ (j : Nat) (hj : j < l.length) (hr : j < rows.length),
      formatRow palette mw_seqs table dir cat sup nc (i + j) (l.get ⟨j, hj⟩) =
        Except.ok (rows.get ⟨j, hr⟩) := by
  induction l generalizing i rows with
  | nil =>
    cases h
    exact ⟨rfl, fun j hj _ => absurd hj (by simp)⟩
  | cons hit rest ih =>
    simp only [formatRows] at h
    split at h
    · cases h
    · rename_i row hrow
      split at h
      · cases h
      · rename_i rows2 hrows2
        cases h
        obtain ⟨hlen, hidx⟩ := ih hrows2
        constructor
        · simp [hlen]
        · intro j hj hr
          cases j with
          | zero => simpa using hrow
          | succ j =>
            have hj' : j < rest.length := Nat.lt_of_succ_lt_succ hj
            have hr' : j < rows2.length := Nat.lt_of_succ_lt_succ hr
            have hstep := hidx j hj' hr'
            have heq : i + 1 + j = i + (j + 1) := by omega
            rw [heq] at hstep
            exact hstep

lemma formatRow_shape {palette : List String} {mw_seqs : String → Option String}
    {table : BiomTable} {dir cat : String} {sup : Bool} {nc n : Nat} {hit : Hit}
    {row : String × String × String × String × String}
    (h : formatRow palette mw_seqs table dir cat sup nc n hit = Except.ok row) :
    strStartsWith (Nat.repr (n + 1) ++ "\t") row.1 ∧
    strEndsWith "\n" row.1 ∧
    strStartsWith ("<tr><td>" ++ Nat.repr (n + 1) ++ "</td>") row.2.1 ∧
    ∃ seq, mw_seqs hit.1 = some seq ∧
      row.2.2.1 = ">" ++ hit.1 ++ "\n" ++ seq ++ "\n" := by
  simp only [formatRow] at h
  split at h
  · cases h
  · rename_i seq hseq
    split at h
    · cases h
    · rename_i tax htax
      split at h
      · cases h
      · rename_i gb_id hgb
        split at h
        · cases h
        · rename_i counts hcounts
          split at h
          · cases h
          · rename_i plot_data hplot
            cases h
            exact ⟨⟨_, rfl⟩, strEndsWith_append _ ⟨_, rfl⟩, ⟨_, rfl⟩,
              seq, hseq, rfl⟩

/-! ### Claim C7 -/

/-- C7: whenever _format_top_n_results_table succeeds, its TSV output is
the header followed by exactly one newline-terminated body row per ranked
result; its FASTA output is the concatenation of exactly one record per
ranked result, record j being ">id\nseq\n" for the j-th ranked hit (rank
order); and the row numbers embedded in the TSV and HTML rows are 1-based
and follow the final rank order (row j starts with "j+1\t", resp.
"<tr><td>j+1</td>"). -/
theorem report_rows_one_per_result (palette : List String) (top_n_mw : List Hit)
    (mw_seqs : String → Option String) (table : BiomTable)
    (output_img_dir mapping_category : String)
    (suppress_taxonomic_output : Bool) (num_categories_to_plot : Nat)
    (tsv html fasta : String) (plot_fps plot_data_fps : List String)
    (hok : _format_top_n_results_table palette top_n_mw mw_seqs table
        output_img_dir mapping_category suppress_taxonomic_output
        num_categories_to_plot =
      Except.ok (tsv, html, fasta, plot_fps, plot_data_fps)) :
    ∃ rows : List (String × String × String × String × String),
      rows.length = top_n_mw.length ∧
      tsv = tsvHeader suppress_taxonomic_output ++
        String.join (rows.map fun r => r.1) ∧
      html = htmlTableHeader suppress_taxonomic_output mapping_category ++
        String.join (rows.map fun r => r.2.1) ++ "</table>" ∧
      fasta = String.join (rows.map fun r => r.2.2.1) ∧
      ∀ (j : Nat) (hj : j < top_n_mw.length) (hr : j < rows.length),
        strStartsWith (Nat.repr (j + 1) ++ "\t") (rows.get ⟨j, hr⟩).1 ∧
        strEndsWith "\n" (rows.get ⟨j, hr⟩).1 ∧
        strStartsWith ("<tr><td>" ++ Nat.repr (j + 1) ++ "</td>")
          (rows.get ⟨j, hr⟩).2.1 ∧
        ∃ seq, mw_seqs (top_n_mw.get ⟨j, hj⟩).1 = some seq ∧
          (rows.get ⟨j, hr⟩).2.2.1 =
            ">" ++ (top_n_mw.get ⟨j, hj⟩).1 ++ "\n" ++ seq ++ "\n" := by
  simp only [_format_top_n_results_table] at hok
  split at hok
  · cases hok
  · rename_i rows hrows
    cases hok
    obtain ⟨hlen, hidx⟩ := formatRows_ok hrows
    refine ⟨rows, hlen, rfl, rfl, rfl, ?_⟩
    intro j hj hr
    have hrow := hidx j hj hr
    rw [Nat.zero_add] at hrow
    exact formatRow_shape hrow

/-- A concrete biom table for the witness below. -/
def sampleTable : BiomTable := ⟨["S1"], fun _ => some [1], fun _ => some "Bacteria"⟩

set_option maxHeartbeats 2000000 in
/-- Witness for C7 on a one-hit input. -/
theorem report_rows_one_per_result_witness :
    ∃ rows : List (String × String × String × String × String),
      rows.length = 1 ∧
      ∀ (j : Nat)
        (_ : j < ([(("OTU1" : String), ("gi|12345|ref|XYZ" : String), (5 : ℚ))] :
            List Hit).length)
        (hr : j < rows.length),
        strStartsWith (Nat.repr (j + 1) ++ "\t") (rows.get ⟨j, hr⟩).1 ∧
        strEndsWith "\n" (rows.get ⟨j, hr⟩).1 := by
  obtain ⟨rows, hlen, _, _, _, hrows⟩ :=
    report_rows_one_per_result ["#c0"] [("OTU1", "gi|12345|ref|XYZ", 5)]
      (fun i => if i = "OTU1" then some "ACGTACGT" else none) sampleTable
      "img" "Env" false 1 _ _ _ _ _ rfl
  exact ⟨rows, hlen, fun j hj hr => ⟨(hrows j hj hr).1, (hrows j hj hr).2.1⟩⟩

end MostWantedOtus
